import Mathlib

/-!
# Verification of the accounts app (login / 2FA / invitation tokens)

Shallow embedding of the authentication core of the CRM repository:

* `accounts/models.py`   — `CustomUser` with TOTP helpers
* `accounts/token_generator.py` — `InvitationTokenGenerator` (over Django's
  `PasswordResetTokenGenerator`, whose `make_token`/`check_token` logic is
  embedded from the framework source since the subclass only overrides
  `_make_hash_value`)
* `accounts/forms.py`    — `TOTPTokenForm`, `Disable2FAForm`, `CustomSetPasswordForm`
* `accounts/views.py`    — `login_user`, `verify_2fa`, `setup_2fa`,
  `disable_2fa`, `set_new_password`
* `accounts/middleware.py` — `Enforce2FAMiddleware`
* `anganicrm/settings.py` — `PASSWORD_RESET_TIMEOUT`

Conventions of the embedding:

* Django's server-side session is a record of the optional keys the accounts
  app uses; `session.pop(k, d)` becomes reading the field and setting it to
  `none`.  `login(request, user)` is modelled as writing the authenticated
  user id (and backend path) into the session.
* Password hashing is modelled as the identity: the `password` field holds
  the value `check_password` compares submitted passwords against.
* The keyed HMAC inside the token generator, and the TOTP code derivation
  inside pyotp, are cryptographic primitives external to the repository;
  they are passed in as function parameters (`hmac`, `gen`) so every theorem
  quantifies over them.
* Python truthiness of the optional strings/ints the code reads from the
  session or POST data is modelled explicitly (`none` and `""`/`0` are falsy).
-/

/-- `accounts/models.py` `CustomUser`: the fields the authentication flows
read or write.  `password` stands for the stored password hash (hashing is
modelled as the identity map). -/
structure CustomUser where
  pk : Nat
  email : String
  password : String
  is_active : Bool
  is_staff : Bool
  totp_secret : Option String
  is_2fa_enabled : Bool
  is_2fa_required : Bool
deriving Repr, DecidableEq

/-- Python truthiness of an optional string (`None` and `""` are falsy). -/
def optStrTruthy : Option String → Bool
  | none => false
  | some s => s ≠ ""

/-- Python truthiness of an optional integer (`None` and `0` are falsy). -/
def optNatTruthy : Option Nat → Bool
  | none => false
  | some n => n ≠ 0

/-- `AbstractBaseUser.check_password`: compare a submitted password with the
stored one (hashing modelled as identity). -/
def check_password (u : CustomUser) (pw : String) : Bool :=
  pw == u.password

/-! ## Token generator (`accounts/token_generator.py` over Django's
`PasswordResetTokenGenerator`) -/

/-- The digit alphabet of Django's `int_to_base36`
(`"0123456789abcdefghijklmnopqrstuvwxyz"`). -/
def base36_alphabet : List Char :=
  "0123456789abcdefghijklmnopqrstuvwxyz".data

/-- `char_set[n]` for a base-36 digit value. -/
def b36char (n : Nat) : Char :=
  base36_alphabet.getD n '0'

/-- The digit value of a character under Python's `int(s, 36)` (which accepts
both lower- and upper-case letters); `none` for a character that is not a
base-36 digit. -/
def b36val (c : Char) : Option Nat :=
  if '0' ≤ c ∧ c ≤ '9' then some (c.toNat - '0'.toNat)
  else if 'a' ≤ c ∧ c ≤ 'z' then some (c.toNat - 'a'.toNat + 10)
  else if 'A' ≤ c ∧ c ≤ 'Z' then some (c.toNat - 'A'.toNat + 10)
  else none

/-- The `while i != 0` loop of Django's `int_to_base36`: most-significant
digit first, empty for `0`. -/
def b36digits (i : Nat) : List Char :=
  if h : i = 0 then []
  else b36digits (i / 36) ++ [b36char (i % 36)]
termination_by i
decreasing_by exact Nat.div_lt_self (Nat.pos_of_ne_zero h) (by norm_num)

/-- Django `django.utils.http.int_to_base36`. -/
def int_to_base36 (i : Nat) : List Char :=
  if i < 36 then [b36char i] else b36digits i

/-- The accumulator loop of `int(s, 36)`; `none` on a non-digit character. -/
def b36decodeCore : Nat → List Char → Option Nat
  | acc, [] => some acc
  | acc, c :: rest =>
    match b36val c with
    | some v => b36decodeCore (acc * 36 + v) rest
    | none => none

/-- Django `django.utils.http.base36_to_int`: rejects strings longer than 13
characters, then parses with `int(s, 36)` (which rejects the empty string). -/
def base36_to_int (s : List Char) : Option Nat :=
  if s.length > 13 then none
  else if s = [] then none
  else b36decodeCore 0 s

/-- Python `str.split("-")` on a list of characters (always returns at least
one segment; `n` dashes yield `n + 1` segments). -/
def splitOnDash : List Char → List (List Char)
  | [] => [[]]
  | c :: rest =>
    if c = '-' then [] :: splitOnDash rest
    else
      match splitOnDash rest with
      | seg :: segs => (c :: seg) :: segs
      | [] => [[c]]

/-- `InvitationTokenGenerator._make_hash_value` (`token_generator.py`):
`str(user.pk) + str(timestamp)` — deliberately ignores password, `is_active`
and every other mutable field. -/
def _make_hash_value (u : CustomUser) (timestamp : Nat) : String :=
  toString u.pk ++ toString timestamp

/-- Django `PasswordResetTokenGenerator._make_token_with_timestamp`:
`int_to_base36(ts) + "-" + salted_hmac(...).hexdigest()[::2]`.  The keyed
HMAC (with its salt, secret and hex truncation) is the parameter `hmac`. -/
def _make_token_with_timestamp (hmac : String → String) (u : CustomUser)
    (ts : Nat) : String :=
  String.mk (int_to_base36 ts) ++ "-" ++ hmac (_make_hash_value u ts)

/-- Django `PasswordResetTokenGenerator.make_token`: token for the current
time `now` (seconds since the generator's epoch). -/
def make_token (hmac : String → String) (u : CustomUser) (now : Nat) : String :=
  _make_token_with_timestamp hmac u now

/-- `anganicrm/settings.py`: `PASSWORD_RESET_TIMEOUT = 60 * 60 * 24 * 7`. -/
def PASSWORD_RESET_TIMEOUT : Nat := 60 * 60 * 24 * 7

/-- Django `PasswordResetTokenGenerator.check_token` with the subclassed
hash value: `False` unless `user` and `token` are truthy, the token splits
as `ts_b36 "-" hash` into exactly two parts, `ts_b36` parses as base 36, the
recomputed token matches, and `now - ts` does not exceed `timeout`. -/
def check_token (hmac : String → String) (timeout : Nat) (now : Nat)
    (user : Option CustomUser) (token : Option String) : Bool :=
  match user, token with
  | some u, some tok =>
    if tok = "" then false
    else
      match splitOnDash tok.data with
      | [ts_b36, _hash] =>
        match base36_to_int ts_b36 with
        | none => false
        | some ts =>
          if _make_token_with_timestamp hmac u ts == tok then
            if (now : Int) - (ts : Int) > (timeout : Int) then false else true
          else false
      | _ => false
  | _, _ => false

/-! ## TOTP verifier (`accounts/models.py` helpers over pyotp) -/

/-- pyotp `OTP.timecode` for a 30-second interval:
`int(time.mktime(for_time.timetuple()) / 30)` (server times are
non-negative, where truncating and floor division agree). -/
def totp_timecode (t : Int) : Int := t / 30

/-- pyotp `TOTP.verify(otp, valid_window)`: with a non-zero window, compare
against `self.at(for_time, i)` for every `i` in
`range(-valid_window, valid_window + 1)`; `at` generates the code for
`timecode(for_time + 30 * i)`.  The code derivation (`generate_otp`, an
HMAC-SHA1 truncation) is the parameter `gen : secret → timecode → code`. -/
def pyotp_TOTP_verify (gen : String → Int → String) (secret : String)
    (otp : String) (for_time : Int) (valid_window : Nat) : Bool :=
  if valid_window ≠ 0 then
    ((List.range (2 * valid_window + 1)).map
        (fun j => (j : Int) - (valid_window : Int))).any
      (fun i => otp == gen secret (totp_timecode (for_time + 30 * i)))
  else otp == gen secret (totp_timecode for_time)

/-- `CustomUser.verify_totp_token` (`models.py`): `False` when no secret is
set (Python falsiness: `None` or `""`), otherwise
`pyotp.TOTP(secret).verify(token, valid_window=1)` at the current server
time `now`. -/
def verify_totp_token (gen : String → Int → String) (u : CustomUser)
    (token : String) (now : Int) (valid_window : Nat := 1) : Bool :=
  match u.totp_secret with
  | none => false
  | some secret =>
    if secret = "" then false
    else pyotp_TOTP_verify gen secret token now valid_window

/-- `CustomUser.ensure_totp_secret` (`models.py`): generate and save a secret
if none exists (the random `pyotp.random_base32()` draw is the parameter
`newSecret`); a user that already has a secret is returned unchanged. -/
def ensure_totp_secret (newSecret : String) (u : CustomUser) : CustomUser :=
  if optStrTruthy u.totp_secret then u
  else { u with totp_secret := some newSecret }

/-! ## Forms (`accounts/forms.py`) -/

/-- Python `str.strip()`: drop leading and trailing whitespace (working on
the string's character list). -/
def py_strip (s : String) : String :=
  String.mk (((s.data.dropWhile Char.isWhitespace).reverse.dropWhile
    Char.isWhitespace).reverse)

/-- Python `str.isdigit` (restricted to ASCII digits): false on the empty
string (working on the string's character list). -/
def str_isdigit (s : String) : Bool :=
  s.data ≠ [] && s.data.all Char.isDigit

/-- Python `str.startswith` (working on the strings' character lists). -/
def str_startswith (s p : String) : Bool :=
  p.data.isPrefixOf s.data

/-- `TOTPTokenForm`: the `token` CharField is required and
`clean_token` strips it and rejects it unless it is all digits with length
between 4 and 8; returns the cleaned token when the form is valid, and
`none` when the field is absent or invalid. -/
def TOTPTokenForm_clean (raw : Option String) : Option String :=
  match raw with
  | none => none
  | some r =>
    let token := py_strip r
    if str_isdigit token && decide (4 ≤ token.length) && decide (token.length ≤ 8)
    then some token else none

/-- `Disable2FAForm`: `password` is a required CharField, and
`clean_password` rejects it when `user.check_password` fails. -/
def Disable2FAForm_is_valid (user : CustomUser) (data_password : Option String) : Bool :=
  match data_password with
  | none => false
  | some pw => pw ≠ "" && check_password user pw

/-- `CustomSetPasswordForm` (a styled `SetPasswordForm`): both password
fields required, equal, and passing the configured password validators
(framework configuration, passed in as `validate_password`). -/
def CustomSetPasswordForm_is_valid (validate_password : String → Bool)
    (pw1 pw2 : Option String) : Bool :=
  match pw1, pw2 with
  | some p1, some p2 => p1 ≠ "" && p2 ≠ "" && p1 == p2 && validate_password p1
  | _, _ => false

/-! ## Session, responses, and URL paths -/

/-- The server-side session keys the accounts app uses.  `auth_user_id` and
`auth_backend` model Django's own authenticated-session keys written by
`django.contrib.auth.login`. -/
structure Session where
  auth_user_id : Option Nat
  auth_backend : Option String
  pre_2fa_user_id : Option Nat
  pre_2fa_backend : Option String
  pre_2fa_next : Option String
  pre_2fa_attempts : Option Nat
  force_2fa_next : Option String
deriving Repr, DecidableEq

/-- A session with no keys set (fresh anonymous session). -/
def Session.empty : Session :=
  ⟨none, none, none, none, none, none, none⟩

/-- The responses the embedded views produce. -/
inductive Response where
  | redirect (url : String)
  | render (template : String)
  | notFound
deriving Repr, DecidableEq

/-- Result of running a view: the session it leaves behind, its response,
and the user-facing messages it queued. -/
structure ViewResult where
  session : Session
  response : Response
  msgs : List String
deriving Repr, DecidableEq

/-- `reverse("accounts:login")` under the root URLconf (`anganicrm/urls.py`
includes `accounts.urls` at `accounts/`). -/
def login_path : String := "/accounts/login/"

/-- `reverse("accounts:logout")`. -/
def logout_path : String := "/accounts/logout/"

/-- `reverse("accounts:setup_2fa")`. -/
def setup_2fa_path : String := "/accounts/setup-2fa/"

/-- `reverse("accounts:verify_2fa")`. -/
def verify_2fa_path : String := "/accounts/verify-2fa/"

/-- `reverse("accounts:profile")`. -/
def profile_path : String := "/accounts/profile/"

/-! ## Views (`accounts/views.py`) -/

/-- `login_user` (`views.py`), POST branch after `authenticate_user` has run.

The authentication backends (`accounts.backends.EmailBackend`) live outside
the embedded sources, so the view takes `authenticate`'s outcome directly:
`none` for a failed credential check, or the user together with its
`.backend` attribute.  `post_next` is `request.POST.get("next")`
(`none` when the key is absent), `access_center` is
`reverse("access_center")` and `default_backend` is
`settings.AUTHENTICATION_BACKENDS[0]`. -/
def login_user (access_center : String) (default_backend : String)
    (auth_result : Option (CustomUser × Option String))
    (post_next : Option String) (s : Session) : ViewResult :=
  match auth_result with
  | none => ⟨s, .redirect login_path, ["Invalid email or password."]⟩
  | some (user, user_backend) =>
    if user.is_2fa_required && !user.is_2fa_enabled then
      -- login(request, user); session["force_2fa_next"] = POST.get("next", reverse(...))
      let s1 := { s with auth_user_id := some user.pk, auth_backend := user_backend }
      let s2 := { s1 with force_2fa_next := some (post_next.getD access_center) }
      ⟨s2, .redirect setup_2fa_path, []⟩
    else if user.is_2fa_enabled then
      -- backend = getattr(user, "backend", None) or AUTHENTICATION_BACKENDS[0]
      let backend :=
        match user_backend with
        | some b => if b = "" then default_backend else b
        | none => default_backend
      let s1 := { s with pre_2fa_user_id := some user.pk }
      let s2 := { s1 with pre_2fa_backend := some backend }
      let s3 := { s2 with pre_2fa_next := some (post_next.getD access_center) }
      ⟨s3, .redirect verify_2fa_path, []⟩
    else
      let s1 := { s with auth_user_id := some user.pk, auth_backend := user_backend }
      let target :=
        match post_next with
        | some n => if n = "" then access_center else n
        | none => access_center
      ⟨s1, .redirect target, ["Logged in successfully."]⟩

/-- `verify_2fa` (`views.py`).  `users` is the user table keyed by primary
key, `req_post` says whether the request is a POST and `post_token` is the
submitted `token` field.  Every `session.pop` of the source is replayed in
order — in particular the success branch pops `pre_2fa_next` once while
clearing state and then pops it again for its redirect target. -/
def verify_2fa (gen : String → Int → String) (now : Int)
    (users : Nat → Option CustomUser) (access_center : String)
    (default_backend : String) (req_post : Bool) (post_token : Option String)
    (s : Session) : ViewResult :=
  match s.pre_2fa_user_id with
  | none => ⟨s, .redirect login_path, []⟩           -- `if not user_id`
  | some uid =>
    if uid = 0 then ⟨s, .redirect login_path, []⟩   -- Python falsiness of 0
    else
      match users uid with
      | none =>
        ⟨{ s with pre_2fa_user_id := none }, .redirect login_path, []⟩
      | some pending_user =>
        let attempts := s.pre_2fa_attempts.getD 0
        if attempts ≥ 10 then
          ⟨{ s with pre_2fa_user_id := none, pre_2fa_attempts := none },
            .redirect login_path, ["Too many attempts. Please login again."]⟩
        else
          match (if req_post then TOTPTokenForm_clean post_token else none) with
          | some token =>
            if verify_totp_token gen pending_user token now then
              -- backend = session.pop("pre_2fa_backend", None) or AUTHENTICATION_BACKENDS[0]
              let popped_backend := s.pre_2fa_backend
              let s1 := { s with pre_2fa_backend := none }
              let backend :=
                match popped_backend with
                | some b => if b = "" then default_backend else b
                | none => default_backend
              -- login(request, pending_user, backend=backend)
              let s2 := { s1 with auth_user_id := some pending_user.pk,
                                  auth_backend := some backend }
              let s3 := { s2 with pre_2fa_user_id := none }
              let s4 := { s3 with pre_2fa_next := none }        -- first pop
              let s5 := { s4 with pre_2fa_attempts := none }
              -- HttpResponseRedirect(session.pop("pre_2fa_next", reverse("access_center")))
              let popped_next := s5.pre_2fa_next
              let s6 := { s5 with pre_2fa_next := none }
              ⟨s6, .redirect (popped_next.getD access_center), ["Logged in with 2FA."]⟩
            else
              ⟨{ s with pre_2fa_attempts := some (attempts + 1) },
                .render "accounts/verify_2fa.html", []⟩
          | none => ⟨s, .render "accounts/verify_2fa.html", []⟩

/-- `setup_2fa` (`views.py`) for a logged-in user (pyotp available, so
`ensure_totp_secret` does not raise).  Returns the stored user row together
with the view result; the QR rendering has no state effect. -/
def setup_2fa (gen : String → Int → String) (now : Int) (newSecret : String)
    (access_center : String) (user : CustomUser) (req_post : Bool)
    (post_token : Option String) (s : Session) : CustomUser × ViewResult :=
  let user1 := ensure_totp_secret newSecret user
  match (if req_post then TOTPTokenForm_clean post_token else none) with
  | some token =>
    if verify_totp_token gen user1 token now then
      -- user.is_2fa_enabled = True; save(update_fields=["is_2fa_enabled"])
      let user2 := { user1 with is_2fa_enabled := true }
      -- next_url = session.pop("force_2fa_next", None) or reverse("access_center")
      let popped := s.force_2fa_next
      let s1 := { s with force_2fa_next := none }
      let next_url := if optStrTruthy popped then popped.getD access_center
                      else access_center
      (user2, ⟨s1, .redirect next_url, ["Two‑factor authentication enabled."]⟩)
    else (user1, ⟨s, .render "accounts/setup_2fa.html", []⟩)
  | none => (user1, ⟨s, .render "accounts/setup_2fa.html", []⟩)

/-- `disable_2fa` (`views.py`) for a logged-in user.  `post_password` is the
`password` field of the submitted `Disable2FAForm`. -/
def disable_2fa (access_center : String) (user : CustomUser) (req_post : Bool)
    (post_password : Option String) (s : Session) : CustomUser × ViewResult :=
  if user.is_2fa_required then
    (user, ⟨s, .redirect profile_path,
      ["Two‑factor authentication is required for your account."]⟩)
  else if req_post then
    if Disable2FAForm_is_valid user post_password then
      let user1 := { user with is_2fa_enabled := false, totp_secret := none }
      (user1, ⟨s, .redirect access_center, ["Two‑factor authentication disabled."]⟩)
    else (user, ⟨s, .render "accounts/disable_2fa.html", []⟩)
  else (user, ⟨s, .render "accounts/disable_2fa.html", []⟩)

/-- `set_new_password` (`views.py`).  `uid` is the outcome of decoding
`uidb64` (`none` when decoding raised, which the view maps to `user = None`
and hence an invalid token); a decoded id with no matching row makes
`get_object_or_404` raise `Http404`, which the `except` clause does not
catch.  Returns the stored user row (unchanged unless the form saved) and
the view result. -/
def set_new_password (hmac : String → String) (timeout : Nat) (now : Nat)
    (validate_password : String → Bool) (users : Nat → Option CustomUser)
    (uid : Option Nat) (token : String) (req_post : Bool)
    (pw1 pw2 : Option String) (s : Session) : Option CustomUser × ViewResult :=
  match uid with
  | none =>
    -- user = None → token_valid is False
    (none, ⟨s, .redirect login_path, ["This link is invalid or has expired."]⟩)
  | some u_pk =>
    match users u_pk with
    | none => (none, ⟨s, .notFound, []⟩)
    | some user =>
      if check_token hmac timeout now (some user) (some token) then
        if req_post && CustomSetPasswordForm_is_valid validate_password pw1 pw2 then
          -- form.save(); user.is_active = True; user.save(update_fields=["is_active"])
          let user1 := { user with password := (pw1.getD ""), is_active := true }
          (some user1, ⟨s, .redirect login_path,
            ["Password set successfully! You can now log in."]⟩)
        else
          (some user, ⟨s, .render "accounts/set_password.html", []⟩)
      else
        (some user, ⟨s, .redirect login_path, ["This link is invalid or has expired."]⟩)

/-! ## Middleware (`accounts/middleware.py`) -/

/-- Outcome of `Enforce2FAMiddleware.__call__`: either the request reaches
`self.get_response` or it is redirected to the 2FA setup page. -/
inductive MWResult where
  | passthrough
  | redirect_setup
deriving Repr, DecidableEq

/-- `Enforce2FAMiddleware.__call__`: `request_user` is `request.user`
(`none` models a missing or anonymous, i.e. non-authenticated, user);
`static_url`/`media_url` come from settings. -/
def Enforce2FAMiddleware_call (static_url : String) (media_url : Option String)
    (request_user : Option CustomUser) (path : String) : MWResult :=
  match request_user with
  | none => .passthrough
  | some u =>
    if u.is_2fa_required && !u.is_2fa_enabled then
      if path ≠ setup_2fa_path ∧ path ≠ logout_path ∧
         path ≠ login_path ∧ path ≠ verify_2fa_path then
        if str_startswith path static_url then .passthrough
        else
          match media_url with
          | some m =>
            if m ≠ "" && str_startswith path m then .passthrough
            else .redirect_setup
          | none => .redirect_setup
      else .passthrough
    else .passthrough

/-! ## Lemmas about the base-36 encoding and token shape -/

lemma b36val_b36char : ∀ d : Nat, d < 36 → b36val (b36char d) = some d := by
  decide

lemma b36char_ne_dash (n : Nat) : b36char n ≠ '-' := by
  by_cases h : n < 36
  · revert h; revert n; decide
  · have hl : base36_alphabet.length ≤ n := by
      simp only [base36_alphabet, List.length_cons, List.length_nil]; omega
    simp only [b36char, List.getD]
    rw [List.get?_eq_none.mpr hl]
    decide

lemma dash_not_mem_b36digits (i : Nat) : '-' ∉ b36digits i := by
  induction i using Nat.strong_induction_on with
  | _ i ih =>
    rw [b36digits]
    by_cases h : i = 0
    · simp [h]
    · simp only [h, dite_false, List.mem_append, List.mem_singleton]
      rintro (hmem | hc)
      · exact ih (i / 36) (Nat.div_lt_self (Nat.pos_of_ne_zero h) (by norm_num)) hmem
      · exact b36char_ne_dash (i % 36) hc.symm

lemma dash_not_mem_int_to_base36 (i : Nat) : '-' ∉ int_to_base36 i := by
  unfold int_to_base36
  by_cases h : i < 36
  · simp only [h, if_true, List.mem_singleton]
    exact fun hc => b36char_ne_dash i hc.symm
  · simp only [h, if_false]
    exact dash_not_mem_b36digits i

lemma splitOnDash_no_dash (l : List Char) (h : '-' ∉ l) : splitOnDash l = [l] := by
  induction l with
  | nil => rfl
  | cons c rest ih =>
    have hc : c ≠ '-' := fun hc => h (hc ▸ List.mem_cons_self c rest)
    have hrest : '-' ∉ rest := fun hm => h (List.mem_cons_of_mem c hm)
    simp only [splitOnDash, hc, if_false, ih hrest]

lemma splitOnDash_append (a b : List Char) (ha : '-' ∉ a) :
    splitOnDash (a ++ '-' :: b) = a :: splitOnDash b := by
  induction a with
  | nil => simp [splitOnDash]
  | cons c rest ih =>
    have hc : c ≠ '-' := fun hc => ha (hc ▸ List.mem_cons_self c rest)
    have hrest : '-' ∉ rest := fun hm => ha (List.mem_cons_of_mem c hm)
    have hsplit := ih hrest
    simp only [List.cons_append, splitOnDash, hc, if_false, List.append_eq, hsplit]

lemma b36decodeCore_append (l1 l2 : List Char) (acc : Nat) :
    b36decodeCore acc (l1 ++ l2) =
      match b36decodeCore acc l1 with
      | some a => b36decodeCore a l2
      | none => none := by
  induction l1 generalizing acc with
  | nil => simp [b36decodeCore]
  | cons c rest ih =>
    simp only [List.cons_append, b36decodeCore]
    cases b36val c with
    | none => rfl
    | some v => exact ih (acc * 36 + v)

lemma b36decodeCore_digits (i : Nat) :
    ∀ acc : Nat, b36decodeCore acc (b36digits i) =
      some (acc * 36 ^ (b36digits i).length + i) := by
  induction i using Nat.strong_induction_on with
  | _ i ih =>
    intro acc
    by_cases h : i = 0
    · subst h
      rw [b36digits]
      simp [b36decodeCore]
    · have hdiv : i / 36 < i := Nat.div_lt_self (Nat.pos_of_ne_zero h) (by norm_num)
      have hmod : i % 36 < 36 := Nat.mod_lt _ (by norm_num)
      have hlen : (b36digits i).length = (b36digits (i / 36)).length + 1 := by
        conv_lhs => rw [b36digits]
        simp [h]
      conv_lhs => rw [b36digits]
      rw [dif_neg h]
      rw [b36decodeCore_append, ih (i / 36) hdiv acc]
      simp only [b36decodeCore, b36val_b36char (i % 36) hmod]
      rw [hlen]
      congr 1
      have hdm : 36 * (i / 36) + i % 36 = i := Nat.div_add_mod i 36
      calc (acc * 36 ^ (b36digits (i / 36)).length + i / 36) * 36 + i % 36
          = acc * 36 ^ ((b36digits (i / 36)).length + 1) + (36 * (i / 36) + i % 36) := by
            rw [pow_succ]; ring
        _ = acc * 36 ^ ((b36digits (i / 36)).length + 1) + i := by rw [hdm]

lemma b36digits_length_le (k : Nat) : ∀ i : Nat, i < 36 ^ k → (b36digits i).length ≤ k := by
  induction k with
  | zero =>
    intro i hi
    have : i = 0 := by simpa using hi
    rw [this, b36digits]; simp
  | succ k ih =>
    intro i hi
    rw [b36digits]
    by_cases h : i = 0
    · simp [h]
    · simp only [h, dite_false, List.length_append, List.length_singleton]
      have : i / 36 < 36 ^ k := by
        rw [Nat.div_lt_iff_lt_mul (by norm_num : 0 < 36)]
        calc i < 36 ^ (k + 1) := hi
          _ = 36 ^ k * 36 := by rw [pow_succ]
      have := ih (i / 36) this
      omega

lemma b36digits_ne_nil (i : Nat) (h : i ≠ 0) : b36digits i ≠ [] := by
  rw [b36digits]
  simp [h]

/-- Round trip of Django's base-36 codec for every timestamp the decoder's
13-character limit admits. -/
lemma base36_roundtrip (T : Nat) (hT : T < 36 ^ 13) :
    base36_to_int (int_to_base36 T) = some T := by
  unfold int_to_base36 base36_to_int
  by_cases h : T < 36
  · simp only [h, if_true, List.length_singleton]
    norm_num
    simp [b36decodeCore, b36val_b36char T h]
  · have hT0 : T ≠ 0 := by omega
    have hlen : (b36digits T).length ≤ 13 := b36digits_length_le 13 T hT
    have hnil : b36digits T ≠ [] := b36digits_ne_nil T hT0
    simp only [h, if_false]
    rw [if_neg (by omega : ¬(b36digits T).length > 13), if_neg hnil]
    rw [b36decodeCore_digits T 0]
    simp

lemma make_token_data (hmac : String → String) (u : CustomUser) (ts : Nat) :
    (_make_token_with_timestamp hmac u ts).data
      = int_to_base36 ts ++ '-' :: (hmac (_make_hash_value u ts)).data := by
  simp [_make_token_with_timestamp, String.data_append]

lemma splitOnDash_token (hmac : String → String) (u : CustomUser) (ts : Nat)
    (hd : '-' ∉ (hmac (_make_hash_value u ts)).data) :
    splitOnDash (_make_token_with_timestamp hmac u ts).data
      = [int_to_base36 ts, (hmac (_make_hash_value u ts)).data] := by
  rw [make_token_data, splitOnDash_append _ _ (dash_not_mem_int_to_base36 ts),
    splitOnDash_no_dash _ hd]

lemma make_token_ne_empty (hmac : String → String) (u : CustomUser) (ts : Nat) :
    _make_token_with_timestamp hmac u ts ≠ "" := by
  intro hcontra
  have hdata := congrArg String.data hcontra
  rw [make_token_data] at hdata
  cases int_to_base36 ts <;> simp at hdata

lemma pyotp_verify_window_one (gen : String → Int → String) (sec token : String)
    (now : Int) :
    pyotp_TOTP_verify gen sec token now 1 = true ↔
      ∃ i : Int, -1 ≤ i ∧ i ≤ 1 ∧ token = gen sec (totp_timecode (now + 30 * i)) := by
  rw [show pyotp_TOTP_verify gen sec token now 1 =
      ((token == gen sec (totp_timecode (now + 30 * (-1)))) ||
       ((token == gen sec (totp_timecode (now + 30 * 0))) ||
        ((token == gen sec (totp_timecode (now + 30 * 1))) || false))) from rfl]
  simp only [Bool.or_false, Bool.or_eq_true, beq_iff_eq]
  constructor
  · rintro (h1 | h1 | h1)
    · exact ⟨-1, by norm_num, by norm_num, h1⟩
    · exact ⟨0, by norm_num, by norm_num, h1⟩
    · exact ⟨1, by norm_num, by norm_num, h1⟩
  · rintro ⟨i, hge, hle, heq⟩
    have hi : i = -1 ∨ i = 0 ∨ i = 1 := by omega
    rcases hi with rfl | rfl | rfl
    · exact Or.inl heq
    · exact Or.inr (Or.inl heq)
    · exact Or.inr (Or.inr heq)

/-! ## Claims -/

/-- Claim C5: `check_token` is unchanged by any mutation of the user's password
hash or active flag between issuance and use, because the hash input
(`_make_hash_value`) is only `(primary key, timestamp)`. -/
theorem C5_token_ignores_password_and_active (hmac : String → String)
    (timeout now : Nat) (u : CustomUser) (p : String) (a : Bool) (tok : String) :
    check_token hmac timeout now (some { u with password := p, is_active := a }) (some tok)
      = check_token hmac timeout now (some u) (some tok) := rfl

/-- Claim C6: an invitation token generated at time `T` is accepted at
`T + (timeout − 1)` seconds and rejected at `T + (timeout + 1)` seconds, and
`check_token` returns false whenever the token's signature does not match
the recomputed one.  `hT` is the 13-character bound Django's
`base36_to_int` imposes on decodable timestamps, and `hdash` records that
the HMAC hex digest contains no `'-'`. -/
theorem C6_token_expiry_and_signature (hmac : String → String) (u : CustomUser)
    (T timeout : Nat) (hT : T < 36 ^ 13) (htimeout : 0 < timeout)
    (hdash : ∀ x, '-' ∉ (hmac x).data) :
    check_token hmac timeout (T + timeout - 1) (some u) (some (make_token hmac u T)) = true
    ∧ check_token hmac timeout (T + timeout + 1) (some u) (some (make_token hmac u T)) = false
    ∧ ∀ (tok : String) (a hsh : List Char) (ts : Nat),
        splitOnDash tok.data = [a, hsh] → base36_to_int a = some ts →
        _make_token_with_timestamp hmac u ts ≠ tok →
        check_token hmac timeout (T + timeout - 1) (some u) (some tok) = false := by
  have hneq := make_token_ne_empty hmac u T
  have hsplit := splitOnDash_token hmac u T (hdash _)
  refine ⟨?_, ?_, ?_⟩
  · simp only [check_token, make_token, if_neg hneq, hsplit, base36_roundtrip T hT,
      beq_self_eq_true, if_true]
    rw [if_neg (by omega)]
  · simp only [check_token, make_token, if_neg hneq, hsplit, base36_roundtrip T hT,
      beq_self_eq_true, if_true]
    rw [if_pos (by omega)]
  · intro tok a hsh ts hsplit' hdec hne
    by_cases htok : tok = ""
    · simp [check_token, htok]
    · simp only [check_token, if_neg htok, hsplit', hdec]
      rw [if_neg (by simpa using hne)]

/-- Claim C6 witness: a concrete token for user pk 1 issued at `T = 1000` with the
repository's `PASSWORD_RESET_TIMEOUT` is accepted one second before expiry
and rejected one second after. -/
theorem C6_witness :
    check_token (fun _ => "zz") PASSWORD_RESET_TIMEOUT (1000 + PASSWORD_RESET_TIMEOUT - 1)
      (some ⟨1, "a@b.c", "pw", false, false, none, false, false⟩)
      (some (make_token (fun _ => "zz")
        ⟨1, "a@b.c", "pw", false, false, none, false, false⟩ 1000)) = true
    ∧ check_token (fun _ => "zz") PASSWORD_RESET_TIMEOUT (1000 + PASSWORD_RESET_TIMEOUT + 1)
      (some ⟨1, "a@b.c", "pw", false, false, none, false, false⟩)
      (some (make_token (fun _ => "zz")
        ⟨1, "a@b.c", "pw", false, false, none, false, false⟩ 1000)) = false := by
  have h := C6_token_expiry_and_signature (fun _ => "zz")
    ⟨1, "a@b.c", "pw", false, false, none, false, false⟩ 1000 PASSWORD_RESET_TIMEOUT
    (by norm_num) (by norm_num [PASSWORD_RESET_TIMEOUT])
    (by intro x; show '-' ∉ "zz".data; decide)
  exact ⟨h.1, h.2.1⟩

/-- Claim C7: for a user with a TOTP secret set, `verify_totp_token` accepts a
code exactly when it matches the generated code of some time step within
±1 step of the current server time; with no secret set it returns false
rather than raising. -/
theorem C7_totp_window (gen : String → Int → String) (u : CustomUser)
    (token : String) (now : Int) :
    (optStrTruthy u.totp_secret = false → verify_totp_token gen u token now = false)
    ∧ ∀ sec : String, u.totp_secret = some sec → sec ≠ "" →
        (verify_totp_token gen u token now = true ↔
          ∃ i : Int, -1 ≤ i ∧ i ≤ 1 ∧ token = gen sec (totp_timecode (now + 30 * i))) := by
  constructor
  · intro hfalsy
    cases hsec : u.totp_secret with
    | none => simp [verify_totp_token, hsec]
    | some s =>
      rw [hsec] at hfalsy
      simp only [optStrTruthy, decide_eq_false_iff_not, ne_eq, not_not] at hfalsy
      simp [verify_totp_token, hsec, hfalsy]
  · intro sec hsec hne
    rw [show verify_totp_token gen u token now = pyotp_TOTP_verify gen sec token now 1 by
      simp [verify_totp_token, hsec, hne]]
    exact pyotp_verify_window_one gen sec token now

/-- Claim C7 witness: with the generator returning `"123456"` only at timecode 3,
a user with a secret accepts `"123456"` at time 100 and a user without a
secret rejects it. -/
theorem C7_witness :
    verify_totp_token (fun _ t => if t = 3 then "123456" else "000000")
      ⟨7, "a@b.c", "pw", true, false, some "SECRET", true, false⟩ "123456" 100 = true
    ∧ verify_totp_token (fun _ t => if t = 3 then "123456" else "000000")
      ⟨7, "a@b.c", "pw", true, false, none, false, false⟩ "123456" 100 = false := by
  constructor
  · exact ((C7_totp_window (fun _ t => if t = 3 then "123456" else "000000")
      ⟨7, "a@b.c", "pw", true, false, some "SECRET", true, false⟩ "123456" 100).2
      "SECRET" rfl (by decide)).mpr ⟨0, by norm_num, by norm_num, by norm_num [totp_timecode]⟩
  · exact (C7_totp_window (fun _ t => if t = 3 then "123456" else "000000")
      ⟨7, "a@b.c", "pw", true, false, none, false, false⟩ "123456" 100).1 rfl

/-- Claim C1 (code bug): a successful TOTP submission with a stashed
destination `"/clients/"` redirects to the default landing route, not to the
stash — `verify_2fa` pops `pre_2fa_next` while clearing pending state and
then pops it again (now empty) for the redirect target, so the stashed
destination is always discarded. -/
theorem C1_success_redirect_ignores_stash :
    (verify_2fa (fun _ t => if t = 3 then "123456" else "000000") 100
      (fun n => if n = 7
        then some ⟨7, "a@b.c", "pw", true, false, some "SECRET", true, false⟩
        else none)
      "/dashboard/" "DB" true (some "123456")
      { Session.empty with
          pre_2fa_user_id := some 7, pre_2fa_backend := some "B",
          pre_2fa_next := some "/clients/", pre_2fa_attempts := some 0 }).response
      = Response.redirect "/dashboard/"
    ∧ (verify_2fa (fun _ t => if t = 3 then "123456" else "000000") 100
      (fun n => if n = 7
        then some ⟨7, "a@b.c", "pw", true, false, some "SECRET", true, false⟩
        else none)
      "/dashboard/" "DB" true (some "123456")
      { Session.empty with
          pre_2fa_user_id := some 7, pre_2fa_backend := some "B",
          pre_2fa_next := some "/clients/", pre_2fa_attempts := some 0 }).response
      ≠ Response.redirect "/clients/" := by
  constructor
  · rfl
  · decide

/-- Claim C2 counterexample: with 5 failed attempts left in the session from
an earlier pending login, a fresh successful credential submission for a
2FA-enabled user leaves the counter at 5 — the stored pending state does not
have the attempt counter equal to 0. -/
theorem C2_counterexample :
    (login_user "/dashboard/" "DB"
      (some (⟨7, "a@b.c", "pw", true, false, some "SECRET", true, false⟩, some "BK"))
      (some "/x/")
      { Session.empty with pre_2fa_attempts := some 5 }).session.pre_2fa_attempts
      = some 5
    ∧ (login_user "/dashboard/" "DB"
      (some (⟨7, "a@b.c", "pw", true, false, some "SECRET", true, false⟩, some "BK"))
      (some "/x/")
      { Session.empty with pre_2fa_attempts := some 5 }).session.pre_2fa_attempts
      ≠ some 0 := by
  constructor
  · rfl
  · decide

/-- Claim C2 (amended): a successful credential submission for a 2FA-enabled
user stores the pending user id, backend and redirect target and redirects
to the verification page, but does not write the attempt counter — the
session keeps whatever counter value it already had (it reads as 0 only when
the key is absent). -/
theorem C2_login_preserves_attempt_counter (ac db : String) (u : CustomUser)
    (ub post_next : Option String) (s : Session) (h2fa : u.is_2fa_enabled = true) :
    (login_user ac db (some (u, ub)) post_next s).session.pre_2fa_user_id = some u.pk
    ∧ (login_user ac db (some (u, ub)) post_next s).session.pre_2fa_backend
        = some (match ub with
                | some b => if b = "" then db else b
                | none => db)
    ∧ (login_user ac db (some (u, ub)) post_next s).session.pre_2fa_next
        = some (post_next.getD ac)
    ∧ (login_user ac db (some (u, ub)) post_next s).session.pre_2fa_attempts
        = s.pre_2fa_attempts
    ∧ (login_user ac db (some (u, ub)) post_next s).response
        = .redirect verify_2fa_path := by
  refine ⟨?_, ?_, ?_, ?_, ?_⟩ <;> simp [login_user, h2fa]

/-- Claim C2 witness: the amended statement at a concrete 2FA-enabled user
and a session carrying 3 leftover failed attempts. -/
theorem C2_witness :
    (login_user "/dashboard/" "DB"
      (some (⟨9, "w@b.c", "pw", true, false, some "S2", true, false⟩, none))
      none { Session.empty with pre_2fa_attempts := some 3 }).session.pre_2fa_backend
      = some "DB"
    ∧ (login_user "/dashboard/" "DB"
      (some (⟨9, "w@b.c", "pw", true, false, some "S2", true, false⟩, none))
      none { Session.empty with pre_2fa_attempts := some 3 }).session.pre_2fa_attempts
      = some 3 := by
  have h := C2_login_preserves_attempt_counter "/dashboard/" "DB"
    ⟨9, "w@b.c", "pw", true, false, some "S2", true, false⟩ none none
    { Session.empty with pre_2fa_attempts := some 3 } rfl
  exact ⟨h.2.1, h.2.2.2.1⟩

/-- Claim C3 counterexample: a locked-out submission (10 recorded attempts)
does not clear all pending-2FA session keys — `pre_2fa_backend` (and
`pre_2fa_next`) survive the lockout. -/
theorem C3_counterexample :
    (verify_2fa (fun _ _ => "000000") 100
      (fun n => if n = 7
        then some ⟨7, "a@b.c", "pw", true, false, some "SECRET", true, false⟩
        else none)
      "/dashboard/" "DB" true (some "123456")
      { Session.empty with
          pre_2fa_user_id := some 7, pre_2fa_backend := some "B",
          pre_2fa_next := some "/clients/", pre_2fa_attempts := some 10 }).session.pre_2fa_backend
      ≠ none := by
  decide

/-- Claim C3 (amended): once the attempt counter has reached 10, any
submission — even one carrying a correct code — never establishes an
authenticated session: the request clears the pending user id and attempt
counter (leaving the stashed backend and redirect keys behind) and redirects
back to login with a lockout message. -/
theorem C3_lockout_blocks_even_correct_codes (gen : String → Int → String)
    (now : Int) (users : Nat → Option CustomUser) (ac db : String)
    (req_post : Bool) (post_token : Option String) (s : Session) (uid : Nat)
    (u : CustomUser) (huid : s.pre_2fa_user_id = some uid) (hz : uid ≠ 0)
    (hu : users uid = some u) (hatt : 10 ≤ s.pre_2fa_attempts.getD 0) :
    verify_2fa gen now users ac db req_post post_token s
      = ⟨{ s with pre_2fa_user_id := none, pre_2fa_attempts := none },
          .redirect login_path, ["Too many attempts. Please login again."]⟩
    ∧ (verify_2fa gen now users ac db req_post post_token s).session.auth_user_id
      = s.auth_user_id := by
  have hmain : verify_2fa gen now users ac db req_post post_token s
      = ⟨{ s with pre_2fa_user_id := none, pre_2fa_attempts := none },
          .redirect login_path, ["Too many attempts. Please login again."]⟩ := by
    simp [verify_2fa, huid, hz, hu, hatt]
  exact ⟨hmain, by rw [hmain]⟩

/-- Claim C3 witness: the amended lockout statement at a concrete session
holding 10 failed attempts and a submission whose code would verify. -/
theorem C3_witness :
    (verify_2fa (fun _ t => if t = 3 then "123456" else "000000") 100
      (fun n => if n = 7
        then some ⟨7, "a@b.c", "pw", true, false, some "SECRET", true, false⟩
        else none)
      "/dashboard/" "DB" true (some "123456")
      { Session.empty with
          pre_2fa_user_id := some 7, pre_2fa_backend := some "B",
          pre_2fa_next := some "/clients/", pre_2fa_attempts := some 10 }).session.auth_user_id
      = none := by
  have h := C3_lockout_blocks_even_correct_codes
    (fun _ t => if t = 3 then "123456" else "000000") 100
    (fun n => if n = 7
      then some ⟨7, "a@b.c", "pw", true, false, some "SECRET", true, false⟩
      else none)
    "/dashboard/" "DB" true (some "123456")
    { Session.empty with
        pre_2fa_user_id := some 7, pre_2fa_backend := some "B",
        pre_2fa_next := some "/clients/", pre_2fa_attempts := some 10 }
    7 ⟨7, "a@b.c", "pw", true, false, some "SECRET", true, false⟩
    rfl (by decide) rfl (by decide)
  exact h.2

/-- Claim C4: for an authenticated user with `is_2fa_required` and without
`is_2fa_enabled`, every request whose path is not one of the four exempt
pages and begins with neither the static nor the media URL prefix is
redirected to 2FA setup, while requests to exempt paths pass through. -/
theorem C4_enforce_2fa_gate (static_url media_url : String) (u : CustomUser)
    (path : String) (hreq : u.is_2fa_required = true)
    (hen : u.is_2fa_enabled = false) :
    ((path ≠ setup_2fa_path ∧ path ≠ logout_path ∧ path ≠ login_path ∧
        path ≠ verify_2fa_path) →
      str_startswith path static_url = false → str_startswith path media_url = false →
      Enforce2FAMiddleware_call static_url (some media_url) (some u) path
        = .redirect_setup)
    ∧ ((path = setup_2fa_path ∨ path = logout_path ∨ path = login_path ∨
        path = verify_2fa_path) →
      Enforce2FAMiddleware_call static_url (some media_url) (some u) path
        = .passthrough) := by
  constructor
  · intro hex hst hmed
    simp [Enforce2FAMiddleware_call, hreq, hen, hex, hst, hmed]
  · intro hmem
    rcases hmem with rfl | rfl | rfl | rfl <;>
      simp [Enforce2FAMiddleware_call, hreq, hen]

/-- Claim C4 witness: a mandated-but-unenrolled user is redirected from a
record-listing path and passes through on the logout path. -/
theorem C4_witness :
    Enforce2FAMiddleware_call "/static/" (some "/media/")
      (some ⟨1, "a@b.c", "pw", true, false, none, false, true⟩) "/clients/"
      = .redirect_setup
    ∧ Enforce2FAMiddleware_call "/static/" (some "/media/")
      (some ⟨1, "a@b.c", "pw", true, false, none, false, true⟩) "/accounts/logout/"
      = .passthrough := by
  constructor
  · exact (C4_enforce_2fa_gate "/static/" "/media/"
      ⟨1, "a@b.c", "pw", true, false, none, false, true⟩ "/clients/" rfl rfl).1
      (by decide) (by decide) (by decide)
  · exact (C4_enforce_2fa_gate "/static/" "/media/"
      ⟨1, "a@b.c", "pw", true, false, none, false, true⟩ "/accounts/logout/" rfl rfl).2
      (Or.inr (Or.inl rfl))

/-- Claim C8: with a valid invitation token and a valid form submission,
`set_new_password` sets the user's password and activates the account while
leaving the session — and hence the absence of an authenticated login —
untouched; with an invalid or expired token it leaves the user record
entirely unchanged and redirects to login with an error message. -/
theorem C8_set_new_password (hmac : String → String) (timeout now : Nat)
    (validate : String → Bool) (users : Nat → Option CustomUser) (uid : Nat)
    (user : CustomUser) (token pw : String) (s : Session)
    (hu : users uid = some user) :
    (check_token hmac timeout now (some user) (some token) = true →
      CustomSetPasswordForm_is_valid validate (some pw) (some pw) = true →
      set_new_password hmac timeout now validate users (some uid) token true
          (some pw) (some pw) s
        = (some { user with password := pw, is_active := true },
           ⟨s, .redirect login_path,
            ["Password set successfully! You can now log in."]⟩))
    ∧ (check_token hmac timeout now (some user) (some token) = false →
      ∀ (req_post : Bool) (pw1 pw2 : Option String),
      set_new_password hmac timeout now validate users (some uid) token req_post
          pw1 pw2 s
        = (some user,
           ⟨s, .redirect login_path, ["This link is invalid or has expired."]⟩)) := by
  constructor
  · intro htok hform
    simp [set_new_password, hu, htok, hform]
  · intro htok req_post pw1 pw2
    simp [set_new_password, hu, htok]

/-- Claim C8 witness: an inactive user with a fresh concrete token is
activated with the new password and an unchanged (still anonymous) session;
the garbage token `"bad"` leaves the record unchanged and redirects to
login with the error message. -/
theorem C8_witness :
    set_new_password (fun _ => "zz") PASSWORD_RESET_TIMEOUT 1000 (fun _ => true)
      (fun n => if n = 7
        then some ⟨7, "a@b.c", "old", false, false, none, false, false⟩
        else none)
      (some 7)
      (make_token (fun _ => "zz") ⟨7, "a@b.c", "old", false, false, none, false, false⟩ 1000)
      true (some "NewPass9") (some "NewPass9") Session.empty
      = (some ⟨7, "a@b.c", "NewPass9", true, false, none, false, false⟩,
         ⟨Session.empty, .redirect login_path,
          ["Password set successfully! You can now log in."]⟩)
    ∧ set_new_password (fun _ => "zz") PASSWORD_RESET_TIMEOUT 1000 (fun _ => true)
      (fun n => if n = 7
        then some ⟨7, "a@b.c", "old", false, false, none, false, false⟩
        else none)
      (some 7) "bad" true (some "NewPass9") (some "NewPass9") Session.empty
      = (some ⟨7, "a@b.c", "old", false, false, none, false, false⟩,
         ⟨Session.empty, .redirect login_path,
          ["This link is invalid or has expired."]⟩) := by
  have htok : check_token (fun _ => "zz") PASSWORD_RESET_TIMEOUT 1000
      (some ⟨7, "a@b.c", "old", false, false, none, false, false⟩)
      (some (make_token (fun _ => "zz")
        ⟨7, "a@b.c", "old", false, false, none, false, false⟩ 1000)) = true := by
    have hneq := make_token_ne_empty (fun _ => "zz")
      ⟨7, "a@b.c", "old", false, false, none, false, false⟩ 1000
    have hsplit := splitOnDash_token (fun _ => "zz")
      ⟨7, "a@b.c", "old", false, false, none, false, false⟩ 1000
      (by show '-' ∉ "zz".data; decide)
    simp only [check_token, make_token, if_neg hneq, hsplit,
      base36_roundtrip 1000 (by norm_num), beq_self_eq_true, if_true]
    rw [if_neg (by norm_num [PASSWORD_RESET_TIMEOUT])]
  constructor
  · exact (C8_set_new_password (fun _ => "zz") PASSWORD_RESET_TIMEOUT 1000
      (fun _ => true)
      (fun n => if n = 7
        then some ⟨7, "a@b.c", "old", false, false, none, false, false⟩
        else none)
      7 ⟨7, "a@b.c", "old", false, false, none, false, false⟩
      (make_token (fun _ => "zz") ⟨7, "a@b.c", "old", false, false, none, false, false⟩ 1000)
      "NewPass9" Session.empty rfl).1 htok (by decide)
  · exact (C8_set_new_password (fun _ => "zz") PASSWORD_RESET_TIMEOUT 1000
      (fun _ => true)
      (fun n => if n = 7
        then some ⟨7, "a@b.c", "old", false, false, none, false, false⟩
        else none)
      7 ⟨7, "a@b.c", "old", false, false, none, false, false⟩
      "bad" "NewPass9" Session.empty rfl).2 (by decide) true (some "NewPass9")
      (some "NewPass9")

/-- Claim C9: `disable_2fa` rejects every request from a user with
`is_2fa_required` (redirect to profile with an error, no state change);
otherwise it succeeds exactly on correct re-entry of the current password,
clearing `is_2fa_enabled` and wiping the TOTP secret, while a wrong password
leaves the user unchanged. -/
theorem C9_disable_2fa (ac : String) (user : CustomUser) (s : Session) :
    (user.is_2fa_required = true → ∀ (req_post : Bool) (post_pw : Option String),
      disable_2fa ac user req_post post_pw s
        = (user, ⟨s, .redirect profile_path,
            ["Two‑factor authentication is required for your account."]⟩))
    ∧ (user.is_2fa_required = false → user.password ≠ "" →
      disable_2fa ac user true (some user.password) s
        = ({ user with is_2fa_enabled := false, totp_secret := none },
           ⟨s, .redirect ac, ["Two‑factor authentication disabled."]⟩))
    ∧ (user.is_2fa_required = false → ∀ pw : String, pw ≠ user.password →
      disable_2fa ac user true (some pw) s
        = (user, ⟨s, .render "accounts/disable_2fa.html", []⟩)) := by
  refine ⟨?_, ?_, ?_⟩
  · intro hreq req_post post_pw
    simp [disable_2fa, hreq]
  · intro hreq hpw
    simp [disable_2fa, hreq, Disable2FAForm_is_valid, check_password, hpw]
  · intro hreq pw hpw
    simp [disable_2fa, hreq, Disable2FAForm_is_valid, check_password, hpw]

/-- Claim C9 witness: a mandated user's request is rejected unchanged; a
non-mandated user disabling with the correct password gets the secret wiped,
and with a wrong password is left unchanged. -/
theorem C9_witness :
    disable_2fa "/dashboard/" ⟨3, "m@b.c", "pw", true, false, some "S", true, true⟩
      true (some "pw") Session.empty
      = (⟨3, "m@b.c", "pw", true, false, some "S", true, true⟩,
         ⟨Session.empty, .redirect profile_path,
          ["Two‑factor authentication is required for your account."]⟩)
    ∧ disable_2fa "/dashboard/" ⟨4, "n@b.c", "pw", true, false, some "S", true, false⟩
      true (some "pw") Session.empty
      = (⟨4, "n@b.c", "pw", true, false, none, false, false⟩,
         ⟨Session.empty, .redirect "/dashboard/",
          ["Two‑factor authentication disabled."]⟩)
    ∧ disable_2fa "/dashboard/" ⟨4, "n@b.c", "pw", true, false, some "S", true, false⟩
      true (some "wrong") Session.empty
      = (⟨4, "n@b.c", "pw", true, false, some "S", true, false⟩,
         ⟨Session.empty, .render "accounts/disable_2fa.html", []⟩) := by
  refine ⟨?_, ?_, ?_⟩
  · exact (C9_disable_2fa "/dashboard/"
      ⟨3, "m@b.c", "pw", true, false, some "S", true, true⟩ Session.empty).1
      rfl true (some "pw")
  · exact (C9_disable_2fa "/dashboard/"
      ⟨4, "n@b.c", "pw", true, false, some "S", true, false⟩ Session.empty).2.1
      rfl (by decide)
  · exact (C9_disable_2fa "/dashboard/"
      ⟨4, "n@b.c", "pw", true, false, some "S", true, false⟩ Session.empty).2.2
      rfl "wrong" (by decide)

/-- Claim C10: a successful `setup_2fa` POST for a user who already has a
TOTP secret persists exactly the `is_2fa_enabled` flag — the stored row
equals the old row with only that field set — so the secret rendered in the
QR code, the password hash, the active flag and every other field are
unchanged; and `ensure_totp_secret` never replaces an existing secret. -/
theorem C10_setup_2fa_frame (gen : String → Int → String) (now : Int)
    (newSecret ac : String) (user : CustomUser) (tokenRaw token : String)
    (s : Session) (hsec : optStrTruthy user.totp_secret = true)
    (hclean : TOTPTokenForm_clean (some tokenRaw) = some token)
    (hver : verify_totp_token gen user token now = true) :
    (setup_2fa gen now newSecret ac user true (some tokenRaw) s).1
      = { user with is_2fa_enabled := true }
    ∧ (setup_2fa gen now newSecret ac user true (some tokenRaw) s).1.totp_secret
      = user.totp_secret
    ∧ ∀ ns : String, ensure_totp_secret ns user = user := by
  have hens : ∀ ns : String, ensure_totp_secret ns user = user := by
    intro ns
    simp [ensure_totp_secret, hsec]
  have h1 : (setup_2fa gen now newSecret ac user true (some tokenRaw) s).1
      = { user with is_2fa_enabled := true } := by
    simp [setup_2fa, hens, hclean, hver]
  exact ⟨h1, by rw [h1], hens⟩

/-- Claim C10 witness: a user with secret `"SECRET"` enabling 2FA with a
valid code keeps the secret, the password and the active flag; only
`is_2fa_enabled` changes. -/
theorem C10_witness :
    (setup_2fa (fun _ t => if t = 3 then "123456" else "000000") 100 "NEW"
      "/dashboard/" ⟨7, "a@b.c", "pw", true, false, some "SECRET", false, true⟩
      true (some " 123456 ") Session.empty).1
      = ⟨7, "a@b.c", "pw", true, false, some "SECRET", true, true⟩ := by
  exact (C10_setup_2fa_frame (fun _ t => if t = 3 then "123456" else "000000")
    100 "NEW" "/dashboard/" ⟨7, "a@b.c", "pw", true, false, some "SECRET", false, true⟩
    " 123456 " "123456" Session.empty rfl (by decide) (by decide)).1
